import Mathlib

/-!
Verification of the multi_mcp consolidation engine and CLI output parsing
against its specification.

The Python sources under `multi_mcp/utils/consolidation.py`,
`multi_mcp/schemas/codereview.py` and `multi_mcp/constants.py` are embedded
shallowly below.  JSON values are modelled by the inductive `JVal`; Python
strings are Lean `String`s and Python string primitives that the code relies
on (lexicographic comparison by code point, `str.strip`, `str.split`,
slicing) are re-implemented over `String.data` so that every definition
evaluates by kernel reduction.

`parse_llm_json` (module `multi_mcp/utils/json_parser.py`), the base
response schemas (`multi_mcp/schemas/base.py`), the prompt text and the
`execute_single` dispatch call are not part of the sources; following the
specification they are taken as parameters or modelled from the spec's data
model, as noted on each definition.
-/

/-- JSON values, the result shape of `parse_llm_json` and the element type of
`issues_found` lists.  Objects are association lists of fields in source
order (Python `dict` preserves insertion order; keys are unique). -/
inductive JVal where
  | null : JVal
  | bool : Bool → JVal
  | num : Int → JVal
  | str : String → JVal
  | arr : List JVal → JVal
  | obj : List (String × JVal) → JVal
  deriving Repr

/-- Lookup of a key in a JSON object's field list (Python `dict.get`). -/
def jlookup (fields : List (String × JVal)) (key : String) : Option JVal :=
  match fields with
  | [] => none
  | (k, v) :: rest => if k == key then some v else jlookup rest key

/-- Python truthiness of a JSON value (`bool(x)`): `None`, `False`, `0`,
empty string, empty list and empty dict are falsy. -/
def jvalTruthy : JVal → Bool
  | JVal.null => false
  | JVal.bool b => b
  | JVal.num n => n != 0
  | JVal.str s => s != ""
  | JVal.arr xs => !xs.isEmpty
  | JVal.obj fs => !fs.isEmpty

/-- Python string `<`: lexicographic comparison of code points. -/
def pyCharsLt : List Char → List Char → Bool
  | [], [] => false
  | [], _ :: _ => true
  | _ :: _, [] => false
  | a :: as, b :: bs =>
    if a.toNat < b.toNat then true
    else if b.toNat < a.toNat then false
    else pyCharsLt as bs

/-- Python string `<=` (total order used by `sorted` on string keys). -/
def pyStrLe (s t : String) : Bool := !(pyCharsLt t.data s.data)

/-- Python whitespace characters stripped by `str.strip()` (ASCII subset). -/
def pySpace (c : Char) : Bool :=
  c == ' ' || c == '\n' || c == '\t' || c == '\r' || c == '\x0b' || c == '\x0c'

/-- Python `str.strip()`: remove leading and trailing whitespace. -/
def pyStrip (s : String) : String :=
  String.mk (((s.data.dropWhile pySpace).reverse.dropWhile pySpace).reverse)

/-- Splitting of a character list at newline characters (Python
`str.split("\n")`): the empty string splits to one empty part. -/
def splitNLChars (cs : List Char) : List (List Char) :=
  cs.foldr
    (fun c acc =>
      match acc with
      | [] => [[c]]
      | g :: gs => if c == '\n' then [] :: g :: gs else (c :: g) :: gs)
    [[]]

/-- Python `str.split("\n")`. -/
def pySplitNL (s : String) : List String := (splitNLChars s.data).map String.mk

/-- Python slice `s[:n]`: the first `n` characters of `s`. -/
def truncateChars (s : String) (n : Nat) : String := String.mk (s.data.take n)

/-- Modelled from the spec: `multi_mcp/schemas/base.py` is not among the
sources.  Per spec section 3, `ResponseMetadata` carries the model name,
optional non-negative token counters and latency, optional artifact
references, and the two consolidation-only fields that stay `none` outside
true consolidation. -/
structure ModelResponseMetadata where
  model : String
  prompt_tokens : Option Nat := none
  completion_tokens : Option Nat := none
  total_tokens : Option Nat := none
  latency_ms : Option Nat := none
  artifacts : Option (List String) := none
  source_models : Option (List String) := none
  consolidation_model : Option String := none
  deriving Repr, DecidableEq

/-- Modelled from the spec: `multi_mcp/schemas/base.py` is not among the
sources.  Per spec section 3, a `ModelResponse` has a status (`success` or
`error`), a content string, an optional error message and metadata. -/
structure ModelResponse where
  status : String
  content : String
  error : Option String := none
  metadata : ModelResponseMetadata
  deriving Repr, DecidableEq

/-- An issue mapping as carried in `issues_found` lists: a JSON object's
field list (`list[dict]` elements in `codereview.py`). -/
abbrev Issue := List (String × JVal)

/-- The `CodeReviewModelResult` of `multi_mcp/schemas/codereview.py`: a
`ModelResponse` specialization additionally carrying
`issues_found : list[dict] | None`. -/
structure CodeReviewModelResult where
  content : String
  status : String
  error : Option String := none
  issues_found : Option (List Issue) := none
  metadata : ModelResponseMetadata
  deriving Repr

/-- A chat message as passed to `execute_single` (a `role`/`content` dict). -/
structure Message where
  role : String
  content : String
  deriving Repr, DecidableEq

/-- Sort key of `_sort_issues_by_location` (consolidation.py lines 221-226):
a missing or `None` location maps to the sentinel `"~"`, a string location
maps to itself.  Locations are strings per the issue schema; non-string
location values (outside the schema) also map to the sentinel here, whereas
Python would compare them polymorphically. -/
def sort_key (issue : Issue) : String :=
  match jlookup issue "location" with
  | none => "~"
  | some JVal.null => "~"
  | some (JVal.str s) => s
  | some _ => "~"

/-- Stable insertion of an issue into a list sorted by `sort_key`
(an element goes before the first strictly greater key, after equal keys of
earlier elements). -/
def insertByLoc (x : Issue) : List Issue → List Issue
  | [] => [x]
  | y :: ys =>
    if pyStrLe (sort_key x) (sort_key y) then x :: y :: ys
    else y :: insertByLoc x ys

/-- Stable sort by `sort_key`, the semantics of Python's
`sorted(issues, key=sort_key)` (Timsort is stable, hence equal to the
stable insertion sort for the same total key order). -/
def stableSortByLoc : List Issue → List Issue
  | [] => []
  | x :: xs => insertByLoc x (stableSortByLoc xs)

/-- `_sort_issues_by_location` (consolidation.py lines 209-228). -/
def _sort_issues_by_location (issues : List Issue) : List Issue :=
  if issues.isEmpty then issues
  else stableSortByLoc issues

/-- Modelled from the spec: the consolidation system prompt text
(`multi_mcp/prompts`) is not among the sources; spec section 4.4 step 3 only
requires one system instruction. -/
def CODEREVIEW_CONSOLIDATION_PROMPT : String :=
  "CODEREVIEW_CONSOLIDATION_PROMPT"

/-- `_build_consolidation_messages` (consolidation.py lines 231-252). -/
def _build_consolidation_messages (successful_results : List ModelResponse) :
    List Message :=
  let model_responses := successful_results.map fun result =>
    "<MODEL name=\"" ++ result.metadata.model ++ "\">\n" ++ result.content ++ "\n</MODEL>"
  let models_xml := String.intercalate "\n\n" model_responses
  let user_message :=
    "<MODEL_RESPONSES>\n" ++ models_xml ++ "\n</MODEL_RESPONSES>\n\nPlease consolidate these code review results following the instructions in the system prompt."
  [ { role := "system", content := CODEREVIEW_CONSOLIDATION_PROMPT },
    { role := "user", content := user_message } ]

/-- `_extract_issues_from_content` (consolidation.py lines 255-263): parse
the content; if it is a JSON object containing the key `issues_found`,
return that key's raw value (whatever JSON value it is), else an empty
list. -/
def _extract_issues_from_content (parse : String → Option JVal)
    (content : String) : JVal :=
  match parse content with
  | some (JVal.obj fields) =>
    match jlookup fields "issues_found" with
    | some v => v
    | none => JVal.arr []
  | _ => JVal.arr []

/-- Pydantic validation of a value against `list[dict] | None`
(the declared type of `CodeReviewModelResult.issues_found`): `None` passes
as `None`, a list passes when every element is a dict, anything else raises
`ValidationError`. -/
def validateIssuesField (v : JVal) : Except String (Option (List Issue)) :=
  match v with
  | JVal.null => Except.ok none
  | JVal.arr elems =>
    (elems.mapM fun e =>
      match e with
      | JVal.obj f => Except.ok f
      | _ => Except.error "ValidationError: issues_found items must be dicts").map
      (fun issues => some issues)
  | _ => Except.error "ValidationError: issues_found must be a list or None"

/-- Extraction of `content` on the success path
(`consolidated.get("message", "No summary provided.")`, line 170): the field
must be a string for the `content : str` pydantic field; a present
non-string value raises inside the `try` block. -/
def getMessageField (consolidated : List (String × JVal)) :
    Except String String :=
  match jlookup consolidated "message" with
  | none => Except.ok "No summary provided."
  | some (JVal.str s) => Except.ok s
  | some _ => Except.error "ValidationError: content must be a string"

/-- Extraction of `status` on the success path
(`consolidated.get("status", "success")`, line 171): per the spec's data
model the status literal is `success` or `error`; any other value raises
inside the `try` block. -/
def getStatusField (consolidated : List (String × JVal)) :
    Except String String :=
  match jlookup consolidated "status" with
  | none => Except.ok "success"
  | some (JVal.str s) =>
    if s == "success" || s == "error" then Except.ok s
    else Except.error "ValidationError: status must be success or error"
  | some _ => Except.error "ValidationError: status must be a string"

/-- The `issues_found` handling of the success path (lines 163-166 plus the
constructor's validation): take `consolidated.get("issues_found", [])`; a
truthy value is sorted by `_sort_issues_by_location` (which requires the
elements to be dicts, raising otherwise, as `sort_key` does via
`issue.get`); a falsy value is passed to the constructor unsorted, where
only `None` and the empty list validate. -/
def extractIssuesField (consolidated : List (String × JVal)) :
    Except String (Option (List Issue)) :=
  let v := (jlookup consolidated "issues_found").getD (JVal.arr [])
  if jvalTruthy v then
    match v with
    | JVal.arr elems =>
      (elems.mapM fun e =>
        match e with
        | JVal.obj f => Except.ok f
        | _ => Except.error "AttributeError: issue has no attribute get").map
        (fun issues => some (_sort_issues_by_location issues))
    | _ => Except.error "TypeError: issues_found is not a list of dicts"
  else
    validateIssuesField v

/-- The metadata aggregation of a successful consolidation call
(consolidation.py lines 126-160): comma-joined model names, summed token
counters each incremented by the consolidation call's own (truthy) count,
`max` source latency plus consolidation latency, the consolidation call's
artifacts, the valid inputs' names as `source_models` and the default model
as `consolidation_model`. -/
def consolidatedMetadata (default_model : String)
    (valid_results : List ModelResponse) (response : ModelResponse) :
    ModelResponseMetadata :=
  let model_names :=
    String.intercalate ", " (valid_results.map fun r => r.metadata.model)
  let total_prompt_tokens :=
    (valid_results.map fun r => r.metadata.prompt_tokens.getD 0).sum
  let total_completion_tokens :=
    (valid_results.map fun r => r.metadata.completion_tokens.getD 0).sum
  let total_tokens :=
    (valid_results.map fun r => r.metadata.total_tokens.getD 0).sum
  let max_source_latency :=
    (valid_results.map fun r => r.metadata.latency_ms.getD 0).foldr max 0
  let total_tokens :=
    if response.metadata.total_tokens.getD 0 != 0 then
      total_tokens + response.metadata.total_tokens.getD 0
    else total_tokens
  let total_prompt_tokens :=
    if response.metadata.prompt_tokens.getD 0 != 0 then
      total_prompt_tokens + response.metadata.prompt_tokens.getD 0
    else total_prompt_tokens
  let total_completion_tokens :=
    if response.metadata.completion_tokens.getD 0 != 0 then
      total_completion_tokens + response.metadata.completion_tokens.getD 0
    else total_completion_tokens
  let consolidation_latency := response.metadata.latency_ms.getD 0
  { model := model_names,
    prompt_tokens := some total_prompt_tokens,
    completion_tokens := some total_completion_tokens,
    total_tokens := some total_tokens,
    latency_ms := some (max_source_latency + consolidation_latency),
    artifacts := response.metadata.artifacts,
    source_models := some (valid_results.map fun r => r.metadata.model),
    consolidation_model := some default_model }

/-- The "all models failed" terminal result (consolidation.py lines 41-61):
zeroed counters, every input's model name in `source_models`, no
consolidation model. -/
def allFailedResult (raw_results : List ModelResponse) :
    CodeReviewModelResult :=
  let model_names :=
    String.intercalate ", " (raw_results.map fun r => r.metadata.model)
  { content := "All models failed to complete the review.",
    status := "error",
    error := some "All models failed",
    issues_found := some [],
    metadata :=
      { model := model_names,
        prompt_tokens := some 0,
        completion_tokens := some 0,
        total_tokens := some 0,
        latency_ms := some 0,
        source_models := some (raw_results.map fun r => r.metadata.model),
        consolidation_model := none } }

/-- The "all successful responses unparseable" terminal result
(consolidation.py lines 77-97). -/
def allInvalidJsonResult (successful : List ModelResponse) :
    CodeReviewModelResult :=
  let model_names :=
    String.intercalate ", " (successful.map fun r => r.metadata.model)
  { content :=
      "All " ++ toString successful.length ++
        " model(s) returned unparseable JSON responses. No results to consolidate.",
    status := "error",
    error := some "All models returned invalid JSON",
    issues_found := some [],
    metadata :=
      { model := model_names,
        prompt_tokens := some 0,
        completion_tokens := some 0,
        total_tokens := some 0,
        latency_ms := some 0,
        source_models := some (successful.map fun r => r.metadata.model),
        consolidation_model := none } }

/-- The filter applied to successful results (consolidation.py lines 66-75):
`parse_llm_json(result.content)` must be truthy and a dict, i.e. a
non-empty JSON object. -/
def is_valid_json_result (parse : String → Option JVal)
    (result : ModelResponse) : Bool :=
  match parse result.content with
  | some (JVal.obj fields) => !fields.isEmpty
  | _ => false

/-- The fallback branch of the `except` handler (consolidation.py lines
176-206): re-wrap the first successful result, with issues best-effort
extracted from its own content and metadata copied field by field;
`source_models` and `consolidation_model` stay `none`.  The `issues_found`
value extracted from the content is validated by the
`CodeReviewModelResult` constructor *outside* any `try` block, so a
validation failure here escapes the whole function (`Except.error`). -/
def fallbackResult (parse : String → Option JVal) (first : ModelResponse) :
    Except String CodeReviewModelResult :=
  match validateIssuesField (_extract_issues_from_content parse first.content) with
  | Except.error e => Except.error e
  | Except.ok issues =>
    Except.ok
      { content := first.content,
        status := "success",
        error := none,
        issues_found := issues,
        metadata :=
          { model := first.metadata.model,
            prompt_tokens := first.metadata.prompt_tokens,
            completion_tokens := first.metadata.completion_tokens,
            total_tokens := first.metadata.total_tokens,
            latency_ms := first.metadata.latency_ms,
            artifacts := first.metadata.artifacts,
            source_models := none,
            consolidation_model := none } }

/-- The body of the `try` block (consolidation.py lines 108-174): execute
the consolidation call, require a success status, parse its content to a
JSON object, aggregate metadata, and build the final result; every `raise`
(explicit `ValueError`s and pydantic validation failures of the
constructor's fields) is an `Except.error`, caught by the caller.  The
consolidation call itself is the `execute` parameter, modelling
`execute_single` (module `multi_mcp/utils/llm_runner.py`, not among the
sources); an `Except.error` outcome models an exception raised by the
call. -/
def tryConsolidate (parse : String → Option JVal) (default_model : String)
    (execute : List Message → Except String ModelResponse)
    (valid_results : List ModelResponse) :
    Except String CodeReviewModelResult :=
  match execute (_build_consolidation_messages valid_results) with
  | Except.error e => Except.error e
  | Except.ok response =>
    if response.status == "success" then
      match parse response.content with
      | some (JVal.obj consolidated) =>
        let metadata := consolidatedMetadata default_model valid_results response
        match getMessageField consolidated, getStatusField consolidated,
            extractIssuesField consolidated with
        | Except.ok content, Except.ok status, Except.ok issues =>
          Except.ok
            { content := content,
              status := status,
              error := none,
              issues_found := issues,
              metadata := metadata }
        | Except.error e, _, _ => Except.error e
        | _, Except.error e, _ => Except.error e
        | _, _, Except.error e => Except.error e
      | _ => Except.error "Expected dict"
    else
      Except.error ("Consolidation LLM call failed: " ++ response.error.getD "None")

/-- `consolidate_model_results` (consolidation.py lines 15-206).  The
returned `Nat` instruments the number of consolidation LLM calls performed
(invocations of `execute`).  The `Except` layer models exceptions escaping
the function: `Except.ok` is a normal return, `Except.error` an unhandled
exception. -/
def consolidate_model_results (parse : String → Option JVal)
    (default_model : String)
    (execute : List Message → Except String ModelResponse)
    (raw_results : List ModelResponse) :
    Except String CodeReviewModelResult × Nat :=
  match raw_results.filter (fun r => r.status == "success") with
  | [] => (Except.ok (allFailedResult raw_results), 0)
  | first :: rest =>
    let successful := first :: rest
    let valid_results := successful.filter (is_valid_json_result parse)
    if valid_results.isEmpty then
      (Except.ok (allInvalidJsonResult successful), 0)
    else
      match tryConsolidate parse default_model execute valid_results with
      | Except.ok res => (Except.ok res, 1)
      | Except.error _ => (fallbackResult parse first, 1)

/-- Modelled from the spec: the CLI output parsers live in
`src/models/litellm_client.py` (`LiteLLMClient._parse_cli_output`), which is
not among the sources; spec section 4.1 defines the `text` behavior as
trimming leading and trailing whitespace, preserving all internal
formatting. -/
def parse_text (raw : String) : String := pyStrip raw

/-- Modelled from the spec: the fragment captured from one parsed JSONL
event (spec section 4.1, `jsonl`): a `type = "text"` event with a non-empty
`text` field contributes that text; an `item.completed` event whose
`item.type` is `"agent_message"` with non-empty `item.text` contributes that
text; every other shape contributes nothing. -/
def eventText (fields : List (String × JVal)) : Option String :=
  match jlookup fields "type" with
  | some (JVal.str "text") =>
    match jlookup fields "text" with
    | some (JVal.str t) => if t == "" then none else some t
    | _ => none
  | some (JVal.str "item.completed") =>
    match jlookup fields "item" with
    | some (JVal.obj item) =>
      match jlookup item "type", jlookup item "text" with
      | some (JVal.str "agent_message"), some (JVal.str t) =>
        if t == "" then none else some t
      | _, _ => none
    | _ => none
  | _ => none

/-- Modelled from the spec: the fragments captured from a list of JSONL
lines, in the order the events were seen; a line that fails to parse as a
JSON object is silently skipped (spec section 4.1, `jsonl`). -/
def jsonl_fragments (jsonParse : String → Option JVal)
    (lines : List String) : List String :=
  lines.filterMap fun line =>
    match jsonParse line with
    | some (JVal.obj fields) => eventText fields
    | _ => none

/-- Modelled from the spec: the `jsonl` parser (spec section 4.1): process
every newline-delimited line independently, join the captured fragments
with newline separators in event order, and fall back to the `text`
behavior on the original raw input when no fragment was captured.  JSON
decoding of a single line is the `jsonParse` parameter
(`json.loads`). -/
def parse_jsonl (jsonParse : String → Option JVal) (raw : String) : String :=
  let fragments := jsonl_fragments jsonParse (pySplitNL raw)
  if fragments.isEmpty then parse_text raw
  else String.intercalate "\n" fragments

/-- Canonical JSON serialization of a string (quoting with escaped quote
and backslash characters). -/
def serializeString (s : String) : String :=
  "\"" ++
    String.mk (s.data.flatMap fun c =>
      if c == '"' || c == '\\' then ['\\', c] else [c]) ++
    "\""

mutual

/-- Modelled from the spec: canonical string serialization of a JSON value
(spec section 4.1, `json`: structured data is still surfaced as text). -/
def serializeJson : JVal → String
  | JVal.null => "null"
  | JVal.bool true => "true"
  | JVal.bool false => "false"
  | JVal.num n => toString n
  | JVal.str s => serializeString s
  | JVal.arr xs => "[" ++ serializeArr xs ++ "]"
  | JVal.obj fs => "\x7b" ++ serializeObj fs ++ "\x7d"

/-- Comma-separated serialization of a JSON array's elements. -/
def serializeArr : List JVal → String
  | [] => ""
  | [x] => serializeJson x
  | x :: y :: rest => serializeJson x ++ ", " ++ serializeArr (y :: rest)

/-- Comma-separated serialization of a JSON object's fields. -/
def serializeObj : List (String × JVal) → String
  | [] => ""
  | [(k, v)] => serializeString k ++ ": " ++ serializeJson v
  | (k, v) :: f :: rest =>
    serializeString k ++ ": " ++ serializeJson v ++ ", " ++ serializeObj (f :: rest)

end

/-- Modelled from the spec: the `json` parser (spec section 4.1): empty or
whitespace-only input returns the empty string without parsing; an object
with a string `response` key returns that value exactly; any other parsed
JSON value is serialized back to text; a parse failure falls back to the
`text` behavior on the original raw string. -/
def parse_json (jsonParse : String → Option JVal) (raw : String) : String :=
  let trimmed := pyStrip raw
  if trimmed == "" then ""
  else
    match jsonParse trimmed with
    | some v =>
      match v with
      | JVal.obj fields =>
        match jlookup fields "response" with
        | some (JVal.str s) => s
        | _ => serializeJson v
      | _ => serializeJson v
    | none => parse_text raw

/-- Modelled from the spec: the parser dispatch of
`LiteLLMClient._parse_cli_output` (spec section 4.1): route by declared
parser kind; unknown or absent kinds degrade to `text`. -/
def parse_cli_output (jsonParse : String → Option JVal) (raw : String) :
    Option String → String
  | some "json" => parse_json jsonParse raw
  | some "jsonl" => parse_jsonl jsonParse raw
  | some "text" => parse_text raw
  | _ => parse_text raw

/-- `ERROR_PREVIEW_MAX_LENGTH` (constants.py line 17). -/
def ERROR_PREVIEW_MAX_LENGTH : Nat := 500

/-- Modelled from the spec: the error response built by the CLI Process
Adapter (`LiteLLMClient._execute_cli_model`, not among the sources) when the
subprocess exits non-zero (spec section 4.2 step 6): an error response whose
message includes the exit code and up to `ERROR_PREVIEW_MAX_LENGTH`
characters of the standard-error stream, truncated silently.  The message
shape follows the unit tests (`exit code N` followed by the stderr
preview). -/
def cli_exit_error_response (model_name : String) (exit_code : Int)
    (stderr : String) : ModelResponse :=
  { status := "error",
    content := "",
    error := some
      ("CLI command failed with exit code " ++ toString exit_code ++ ": " ++
        truncateChars stderr ERROR_PREVIEW_MAX_LENGTH),
    metadata := { model := model_name } }

/-- Adding a Python-truthy count (line 139-144 pattern `if x: total += x`)
equals unconditional addition of the `or 0` value. -/
theorem add_if_truthy (s x : Nat) : (if x != 0 then s + x else s) = s + x := by
  by_cases hx : x = 0
  · simp [hx]
  · simp [hx]

/-- Unwrapping a `mapM` that succeeds on every `JVal.obj`-wrapped element. -/
theorem mapM_obj_ok (f : JVal → Except String Issue)
    (hf : ∀ x, f (JVal.obj x) = Except.ok x) (elems : List Issue) :
    List.mapM f (elems.map JVal.obj) = Except.ok elems := by
  induction elems with
  | nil => rfl
  | cons a l ih =>
    simp only [List.map_cons, List.mapM_cons, hf, ih]
    rfl

/-- C1: the consolidation safety-net sort (`_sort_issues_by_location`) is
claimed to order issues by ascending location with `None` sorting after
every real string location.  The spec's own example sorts as claimed, but
the `None` sentinel is the literal string `"~"`, which does not sort after
every real string: with locations `["~~", None]` the `None`-located issue
sorts *first*, contradicting the claim (and the function's own comment
"None sorts last"). -/
theorem sort_issues_sentinel_not_last :
    _sort_issues_by_location
        [[("location", JVal.str "b.py:2")], [("location", JVal.null)],
          [("location", JVal.str "a.py:1")], [("location", JVal.str "")]]
      = [[("location", JVal.str "")], [("location", JVal.str "a.py:1")],
          [("location", JVal.str "b.py:2")], [("location", JVal.null)]]
  ∧ _sort_issues_by_location
        [[("location", JVal.str "~~")], [("location", JVal.null)]]
      = [[("location", JVal.null)], [("location", JVal.str "~~")]]
  ∧ sort_key [("location", JVal.null)] = "~" :=
  ⟨rfl, rfl, rfl⟩

/-- C6: when no input response has status `success`,
`consolidate_model_results` returns the "all failed" error result with
zeroed counters and latency, `source_models` listing every input's model
name, no consolidation model, and performs no consolidation LLM call; in
general at most one LLM call happens per invocation. -/
theorem consolidate_all_failed_shape (parse : String → Option JVal)
    (dm : String) (execute : List Message → Except String ModelResponse)
    (raw : List ModelResponse)
    (h : ∀ r ∈ raw, r.status ≠ "success") :
    consolidate_model_results parse dm execute raw
      = (Except.ok (allFailedResult raw), 0)
  ∧ (allFailedResult raw).status = "error"
  ∧ (allFailedResult raw).metadata.prompt_tokens = some 0
  ∧ (allFailedResult raw).metadata.completion_tokens = some 0
  ∧ (allFailedResult raw).metadata.total_tokens = some 0
  ∧ (allFailedResult raw).metadata.latency_ms = some 0
  ∧ (allFailedResult raw).metadata.source_models
      = some (raw.map fun r => r.metadata.model)
  ∧ (allFailedResult raw).metadata.consolidation_model = none
  ∧ ∀ (parse2 : String → Option JVal) (dm2 : String)
      (execute2 : List Message → Except String ModelResponse)
      (raw2 : List ModelResponse),
      (consolidate_model_results parse2 dm2 execute2 raw2).2 ≤ 1 := by
  have hf : raw.filter (fun r => r.status == "success") = [] := by
    rw [List.filter_eq_nil_iff]
    intro a ha
    simpa using h a ha
  refine ⟨?_, rfl, rfl, rfl, rfl, rfl, rfl, rfl, ?_⟩
  · simp [consolidate_model_results, hf]
  · intro p2 d2 e2 r2
    unfold consolidate_model_results
    cases hf2 : r2.filter (fun r => r.status == "success") with
    | nil => simp
    | cons a l =>
      simp only
      split
      · simp
      · split <;> simp

def c6_err : ModelResponse :=
  { status := "error", content := "", error := some "boom",
    metadata := { model := "beta" } }

/-- Witness for C6 at a concrete all-failed input. -/
theorem consolidate_all_failed_shape_witness :
    (∀ r ∈ [c6_err], r.status ≠ "success")
  ∧ consolidate_model_results (fun _ => none) "dm"
      (fun _ => Except.error "x") [c6_err]
      = (Except.ok (allFailedResult [c6_err]), 0) :=
  ⟨by decide,
    (consolidate_all_failed_shape (fun _ => none) "dm"
      (fun _ => Except.error "x") [c6_err] (by decide)).1⟩

/-- C2: on a successful consolidation call, each returned token counter is
the sum of the valid inputs' counters plus the consolidation call's own
counter, `latency_ms` is the maximum valid-input latency plus the
consolidation call's latency, `model` is the comma-joined valid input names
in original order, `source_models` the ordered valid input names and
`consolidation_model` the configured default model. -/
theorem consolidate_success_metadata (parse : String → Option JVal)
    (dm : String) (execute : List Message → Except String ModelResponse)
    (raw valid : List ModelResponse) (first : ModelResponse)
    (rest : List ModelResponse) (response : ModelResponse)
    (res : CodeReviewModelResult)
    (hs : raw.filter (fun r => r.status == "success") = first :: rest)
    (hv : (first :: rest).filter (is_valid_json_result parse) = valid)
    (hvne : valid ≠ [])
    (hx : execute (_build_consolidation_messages valid) = Except.ok response)
    (ht : tryConsolidate parse dm execute valid = Except.ok res) :
    consolidate_model_results parse dm execute raw = (Except.ok res, 1)
  ∧ res.metadata.model
      = String.intercalate ", " (valid.map fun r => r.metadata.model)
  ∧ res.metadata.prompt_tokens
      = some ((valid.map fun r => r.metadata.prompt_tokens.getD 0).sum
          + response.metadata.prompt_tokens.getD 0)
  ∧ res.metadata.completion_tokens
      = some ((valid.map fun r => r.metadata.completion_tokens.getD 0).sum
          + response.metadata.completion_tokens.getD 0)
  ∧ res.metadata.total_tokens
      = some ((valid.map fun r => r.metadata.total_tokens.getD 0).sum
          + response.metadata.total_tokens.getD 0)
  ∧ res.metadata.latency_ms
      = some ((valid.map fun r => r.metadata.latency_ms.getD 0).foldr max 0
          + response.metadata.latency_ms.getD 0)
  ∧ res.metadata.source_models = some (valid.map fun r => r.metadata.model)
  ∧ res.metadata.consolidation_model = some dm := by
  have h1 : consolidate_model_results parse dm execute raw
      = (Except.ok res, 1) := by
    unfold consolidate_model_results
    rw [hs]
    simp only [hv, ht]
    simp [List.isEmpty_iff, hvne]
  have hm : res.metadata = consolidatedMetadata dm valid response := by
    simp only [tryConsolidate, hx] at ht
    split at ht
    · split at ht
      · split at ht
        · cases ht
          rfl
        · cases ht
        · cases ht
        · cases ht
      · cases ht
    · cases ht
  refine ⟨h1, ?_, ?_, ?_, ?_, ?_, ?_, ?_⟩ <;>
    simp [hm, consolidatedMetadata, add_if_truthy]

def c2_r1 : ModelResponse :=
  { status := "success", content := "c1",
    metadata :=
      { model := "alpha", prompt_tokens := some 10,
        completion_tokens := some 20, total_tokens := some 30,
        latency_ms := some 100 } }

def c2_resp : ModelResponse :=
  { status := "success", content := "cc",
    metadata :=
      { model := "dm", prompt_tokens := some 1, completion_tokens := some 2,
        total_tokens := some 3, latency_ms := some 50 } }

def c2_parse : String → Option JVal := fun s =>
  if s == "c1" then some (JVal.obj [("x", JVal.num 1)])
  else if s == "cc" then
    some (JVal.obj
      [("message", JVal.str "Merged"),
        ("issues_found", JVal.arr [JVal.obj [("location", JVal.str "a.py:1")]])])
  else none

def c2_res : CodeReviewModelResult :=
  { content := "Merged", status := "success", error := none,
    issues_found := some [[("location", JVal.str "a.py:1")]],
    metadata :=
      { model := "alpha", prompt_tokens := some 11,
        completion_tokens := some 22, total_tokens := some 33,
        latency_ms := some 150, artifacts := none,
        source_models := some ["alpha"],
        consolidation_model := some "dm" } }

/-- Witness for C2 at a concrete one-valid-input consolidation. -/
theorem consolidate_success_metadata_witness :
    consolidate_model_results c2_parse "dm" (fun _ => Except.ok c2_resp) [c2_r1]
      = (Except.ok c2_res, 1)
  ∧ c2_res.metadata.total_tokens = some 33
  ∧ c2_res.metadata.latency_ms = some 150
  ∧ c2_res.metadata.consolidation_model = some "dm" :=
  have h := consolidate_success_metadata c2_parse "dm"
    (fun _ => Except.ok c2_resp) [c2_r1] [c2_r1] c2_r1 [] c2_resp c2_res
    rfl rfl (by decide) rfl rfl
  ⟨h.1, h.2.2.2.2.1, h.2.2.2.2.2.1, h.2.2.2.2.2.2.2⟩

def c3_parse : String → Option JVal := fun s =>
  if s == "bad3" then some (JVal.obj [("issues_found", JVal.num 5)]) else none

def c3_first : ModelResponse :=
  { status := "success", content := "bad3", metadata := { model := "alpha" } }

/-- C3: the claim that `consolidate_model_results` always returns normally
fails on the code.  When the consolidation call raises and the first
successful response's content is a JSON object whose `issues_found` value
is not a list (here the number `5`), the `except` handler passes that raw
value to the `CodeReviewModelResult` constructor outside any `try` block,
and the constructor's validation error escapes the function — modelled by
the `Except.error` outcome below. -/
theorem consolidate_exception_escapes :
    consolidate_model_results c3_parse "dm"
        (fun _ => Except.error "consolidation down") [c3_first]
      = (Except.error "ValidationError: issues_found must be a list or None", 1)
  ∧ c3_first.status = "success" :=
  ⟨rfl, rfl⟩

def c4_parse : String → Option JVal := fun s =>
  if s == "c4in" then some (JVal.obj [("x", JVal.num 1)])
  else if s == "c4out" then some (JVal.obj [("status", JVal.str "error")])
  else none

def c4_r : ModelResponse :=
  { status := "success", content := "c4in", metadata := { model := "alpha" } }

def c4_resp : ModelResponse :=
  { status := "success", content := "c4out", metadata := { model := "dm" } }

/-- C4 counterexample: a single valid successful input, a successful
consolidation call — yet the returned status is `error`, because the
consolidation output object carries `status = "error"` and the code copies
it (`consolidated.get("status", "success")`), contradicting "status success
regardless of what the consolidation call returns". -/
theorem consolidate_overall_status_counterexample :
    ((consolidate_model_results c4_parse "dm"
          (fun _ => Except.ok c4_resp) [c4_r]).1.map fun r => r.status)
      = Except.ok "error"
  ∧ c4_r.status = "success"
  ∧ is_valid_json_result c4_parse c4_r = true :=
  ⟨rfl, rfl, rfl⟩

/-- Characterization of a successful status extraction: the default and the
literal `success` give `success`; otherwise the output object explicitly
carried the returned (necessarily `error`) status. -/
theorem getStatusField_ok (c : List (String × JVal)) (s : String)
    (h : getStatusField c = Except.ok s) :
    s = "success" ∨ (jlookup c "status" = some (JVal.str s) ∧ s = "error") := by
  unfold getStatusField at h
  cases hj : jlookup c "status" with
  | none =>
    rw [hj] at h
    cases h
    left
    rfl
  | some v =>
    rw [hj] at h
    cases v with
    | str t =>
      by_cases hts : t = "success"
      · subst hts
        simp at h
        left
        exact h.symm
      · by_cases hte : t = "error"
        · subst hte
          simp at h
          right
          subst h
          exact ⟨rfl, rfl⟩
        · simp [hts, hte] at h
    | null => cases h
    | bool b => cases h
    | num n => cases h
    | arr xs => cases h
    | obj fs => cases h

/-- When at least one input is successful, some input is valid and the
`try` body fails, `consolidate_model_results` runs the fallback handler on
the first successful input (one LLM call was made). -/
theorem consolidate_fallback_eq (parse : String → Option JVal) (dm : String)
    (execute : List Message → Except String ModelResponse)
    (raw : List ModelResponse) (first : ModelResponse)
    (rest : List ModelResponse) (e : String)
    (hs : raw.filter (fun r => r.status == "success") = first :: rest)
    (hne : (first :: rest).filter (is_valid_json_result parse) ≠ [])
    (htc : tryConsolidate parse dm execute
        ((first :: rest).filter (is_valid_json_result parse))
      = Except.error e) :
    consolidate_model_results parse dm execute raw
      = (fallbackResult parse first, 1) := by
  have hie : ((first :: rest).filter (is_valid_json_result parse)).isEmpty
      = false := by
    simp [List.isEmpty_iff, hne]
  unfold consolidate_model_results
  rw [hs]
  simp only [hie, htc]
  simp

/-- C4 (amended): whenever at least one input response is valid
(JSON-object-parseable successful content), any normally returned result
has status `success` — unless the consolidation call succeeded and its
output JSON object explicitly carries `status = "error"`, which the code
copies into the result. -/
theorem consolidate_overall_status_amended (parse : String → Option JVal)
    (dm : String) (execute : List Message → Except String ModelResponse)
    (raw : List ModelResponse) (res : CodeReviewModelResult)
    (hne : (raw.filter (fun r => r.status == "success")).filter
        (is_valid_json_result parse) ≠ [])
    (hok : (consolidate_model_results parse dm execute raw).1
        = Except.ok res) :
    res.status = "success"
  ∨ ∃ response consolidated,
      execute (_build_consolidation_messages
          ((raw.filter (fun r => r.status == "success")).filter
            (is_valid_json_result parse)))
        = Except.ok response
    ∧ parse response.content = some (JVal.obj consolidated)
    ∧ jlookup consolidated "status" = some (JVal.str res.status)
    ∧ res.status = "error" := by
  cases hs : raw.filter (fun r => r.status == "success") with
  | nil =>
    rw [hs] at hne
    simp at hne
  | cons first rest =>
    rw [hs] at hne
    have hie : ((first :: rest).filter (is_valid_json_result parse)).isEmpty
        = false := by
      simp [List.isEmpty_iff, hne]
    cases htc : tryConsolidate parse dm execute
        ((first :: rest).filter (is_valid_json_result parse)) with
    | error e =>
      rw [consolidate_fallback_eq parse dm execute raw first rest e hs hne htc]
        at hok
      unfold fallbackResult at hok
      cases hvf : validateIssuesField
          (_extract_issues_from_content parse first.content) with
      | error e2 =>
        rw [hvf] at hok
        cases hok
      | ok issues =>
        rw [hvf] at hok
        cases hok
        left
        rfl
    | ok r =>
      have hc : consolidate_model_results parse dm execute raw
          = (Except.ok r, 1) := by
        unfold consolidate_model_results
        rw [hs]
        simp only [hie, htc]
        simp
      rw [hc] at hok
      cases hok
      cases hx : execute (_build_consolidation_messages
          ((first :: rest).filter (is_valid_json_result parse))) with
      | error e3 =>
        simp only [tryConsolidate, hx] at htc
        cases htc
      | ok response =>
        simp only [tryConsolidate, hx] at htc
        split at htc
        · split at htc
          · rename_i consolidated hp
            split at htc
            · rename_i content status issues hmf hsf hif
              cases htc
              rcases getStatusField_ok consolidated status hsf with hsucc | ⟨hj, herr⟩
              · left
                exact hsucc
              · right
                exact ⟨response, consolidated, rfl, hp, hj, herr⟩
            · cases htc
            · cases htc
            · cases htc
          · cases htc
        · cases htc

def c4w_parse : String → Option JVal := fun s =>
  if s == "cw" then some (JVal.obj [("y", JVal.num 2)]) else none

def c4w_r : ModelResponse :=
  { status := "success", content := "cw", metadata := { model := "alpha" } }

def c4w_res : CodeReviewModelResult :=
  { content := "cw", status := "success", error := none,
    issues_found := some [],
    metadata := { model := "alpha" } }

/-- Witness for the amended C4 at a concrete fallback input. -/
theorem consolidate_overall_status_amended_witness :
    (([c4w_r].filter (fun r => r.status == "success")).filter
        (is_valid_json_result c4w_parse) ≠ [])
  ∧ c4w_res.status = "success" :=
  ⟨by decide, by
    rcases consolidate_overall_status_amended c4w_parse "dm"
        (fun _ => Except.error "down") [c4w_r] c4w_res (by decide) rfl with
      h | h
    · exact h
    · rcases h with ⟨resp, c, hx, _⟩
      cases hx⟩

def c5_parse : String → Option JVal := fun s =>
  if s == "bad5" then some (JVal.obj [("issues_found", JVal.str "oops")])
  else none

def c5_first : ModelResponse :=
  { status := "success", content := "bad5", metadata := { model := "alpha" } }

/-- C5 counterexample: the consolidation call errors, so the claim promises
the first successful input re-wrapped as a normal result; instead, because
that input's content is a JSON object whose `issues_found` value is the
string `"oops"` (not a list), the constructor's validation error escapes
and no result is returned at all. -/
theorem consolidate_fallback_counterexample :
    (consolidate_model_results c5_parse "dm"
        (fun _ => Except.error "down") [c5_first]).1
      = Except.error "ValidationError: issues_found must be a list or None"
  ∧ (∀ r : CodeReviewModelResult,
      (consolidate_model_results c5_parse "dm"
          (fun _ => Except.error "down") [c5_first]).1 ≠ Except.ok r)
  ∧ c5_first.status = "success" := by
  refine ⟨rfl, ?_, rfl⟩
  intro r h
  rw [show (consolidate_model_results c5_parse "dm"
      (fun _ => Except.error "down") [c5_first]).1
    = Except.error "ValidationError: issues_found must be a list or None"
    from rfl] at h
  cases h

/-- C5 (amended): if the consolidation LLM call errors or its output is not
a JSON object (any failure of the `try` body), and the issues value
extracted from the first successful input's content validates as
`list[dict] | None`, then the result is that first response re-wrapped:
content and status copied verbatim, issues from its own content, metadata
copied field by field, `source_models` and `consolidation_model` null.
(Without the validation proviso, the constructor's validation error escapes
instead — see the counterexample.) -/
theorem consolidate_fallback_shape (parse : String → Option JVal)
    (dm : String) (execute : List Message → Except String ModelResponse)
    (raw : List ModelResponse) (first : ModelResponse)
    (rest : List ModelResponse) (e : String) (oIssues : Option (List Issue))
    (hs : raw.filter (fun r => r.status == "success") = first :: rest)
    (hne : (first :: rest).filter (is_valid_json_result parse) ≠ [])
    (htc : tryConsolidate parse dm execute
        ((first :: rest).filter (is_valid_json_result parse))
      = Except.error e)
    (hv : validateIssuesField (_extract_issues_from_content parse first.content)
      = Except.ok oIssues) :
    consolidate_model_results parse dm execute raw
      = (Except.ok
          { content := first.content, status := "success", error := none,
            issues_found := oIssues,
            metadata :=
              { model := first.metadata.model,
                prompt_tokens := first.metadata.prompt_tokens,
                completion_tokens := first.metadata.completion_tokens,
                total_tokens := first.metadata.total_tokens,
                latency_ms := first.metadata.latency_ms,
                artifacts := first.metadata.artifacts,
                source_models := none,
                consolidation_model := none } }, 1)
  ∧ first.status = "success" := by
  constructor
  · rw [consolidate_fallback_eq parse dm execute raw first rest e hs hne htc]
    unfold fallbackResult
    rw [hv]
  · have hmem : first ∈ raw.filter (fun r => r.status == "success") := by
      rw [hs]
      exact List.mem_cons_self _ _
    have hp := (List.mem_filter.mp hmem).2
    simpa using hp

def c5w_parse : String → Option JVal := fun s =>
  if s == "good" then some (JVal.obj [("y", JVal.num 2)]) else none

def c5w_a : ModelResponse :=
  { status := "success", content := "nojson",
    metadata :=
      { model := "alpha", prompt_tokens := some 7, completion_tokens := some 8,
        total_tokens := some 15, latency_ms := some 42,
        artifacts := some ["art1"] } }

def c5w_b : ModelResponse :=
  { status := "success", content := "good", metadata := { model := "beta" } }

/-- Witness for the amended C5: the first successful input is not valid
JSON, a later one is; the fallback still returns the first one verbatim
with its metadata copied and the consolidation fields null. -/
theorem consolidate_fallback_shape_witness :
    consolidate_model_results c5w_parse "dm"
        (fun _ => Except.error "down") [c5w_a, c5w_b]
      = (Except.ok
          { content := "nojson", status := "success", error := none,
            issues_found := some [],
            metadata :=
              { model := "alpha", prompt_tokens := some 7,
                completion_tokens := some 8, total_tokens := some 15,
                latency_ms := some 42, artifacts := some ["art1"],
                source_models := none, consolidation_model := none } }, 1)
  ∧ c5w_a.status = "success"
  ∧ is_valid_json_result c5w_parse c5w_a = false :=
  have h := consolidate_fallback_shape c5w_parse "dm"
    (fun _ => Except.error "down") [c5w_a, c5w_b] c5w_a [c5w_b] "down"
    (some []) rfl (by decide) rfl rfl
  ⟨h.1, h.2, rfl⟩

/-- Validation of a list of dict issues succeeds and returns them
verbatim. -/
theorem validateIssues_objList (issues : List Issue) :
    validateIssuesField (JVal.arr (issues.map JVal.obj))
      = Except.ok (some issues) := by
  simp only [validateIssuesField]
  rw [mapM_obj_ok _ (fun x => rfl) issues]
  rfl

/-- C10: on the consolidation fallback path the `issues_found` list
extracted from the first successful response's own content is returned in
the order it appears in that content's JSON; the location-based safety-net
sort is applied only by the success path's issue extraction. -/
theorem consolidate_fallback_issue_order (parse : String → Option JVal)
    (dm : String) (execute : List Message → Except String ModelResponse)
    (raw : List ModelResponse) (first : ModelResponse)
    (rest : List ModelResponse) (e : String)
    (fields : List (String × JVal)) (issues : List Issue)
    (hs : raw.filter (fun r => r.status == "success") = first :: rest)
    (hne : (first :: rest).filter (is_valid_json_result parse) ≠ [])
    (htc : tryConsolidate parse dm execute
        ((first :: rest).filter (is_valid_json_result parse))
      = Except.error e)
    (hp : parse first.content = some (JVal.obj fields))
    (hj : jlookup fields "issues_found"
      = some (JVal.arr (issues.map JVal.obj))) :
    ((consolidate_model_results parse dm execute raw).1.map
        fun r => r.issues_found)
      = Except.ok (some issues)
  ∧ (∀ (consolidated : List (String × JVal)) (elems : List Issue),
      jlookup consolidated "issues_found"
          = some (JVal.arr (elems.map JVal.obj)) →
      elems ≠ [] →
      extractIssuesField consolidated
        = Except.ok (some (_sort_issues_by_location elems))) := by
  constructor
  · rw [consolidate_fallback_eq parse dm execute raw first rest e hs hne htc]
    simp only [fallbackResult, _extract_issues_from_content, hp, hj,
      validateIssues_objList]
    rfl
  · intro consolidated elems hj2 hne2
    have hmne : elems.map JVal.obj ≠ [] := by
      simp [hne2]
    have htr : jvalTruthy (JVal.arr (elems.map JVal.obj)) = true := by
      simp [jvalTruthy, List.isEmpty_iff, hmne]
    unfold extractIssuesField
    rw [hj2]
    simp only [Option.getD_some, htr, if_true]
    rw [mapM_obj_ok _ (fun x => rfl) elems]
    rfl

def c10_issues : List Issue :=
  [[("location", JVal.str "b.py:2")], [("location", JVal.str "a.py:1")]]

def c10_parse : String → Option JVal := fun s =>
  if s == "has" then
    some (JVal.obj [("issues_found", JVal.arr (c10_issues.map JVal.obj))])
  else none

def c10_first : ModelResponse :=
  { status := "success", content := "has", metadata := { model := "alpha" } }

/-- Witness for C10: the fallback keeps the unsorted content order
`b.py:2, a.py:1`, which differs from the safety-net sorted order. -/
theorem consolidate_fallback_issue_order_witness :
    ((consolidate_model_results c10_parse "dm"
          (fun _ => Except.error "down") [c10_first]).1.map
        fun r => r.issues_found)
      = Except.ok (some c10_issues)
  ∧ c10_issues.map sort_key = ["b.py:2", "a.py:1"]
  ∧ (_sort_issues_by_location c10_issues).map sort_key
      = ["a.py:1", "b.py:2"] :=
  have h := consolidate_fallback_issue_order c10_parse "dm"
    (fun _ => Except.error "down") [c10_first] c10_first [] "down"
    [("issues_found", JVal.arr (c10_issues.map JVal.obj))] c10_issues
    rfl (by decide) rfl rfl rfl
  ⟨h.1, rfl, rfl⟩

def c7_parse : String → Option JVal := fun s =>
  if s == "lineA" then
    some (JVal.obj [("type", JVal.str "text"), ("text", JVal.str "A")])
  else if s == "lineB" then
    some (JVal.obj [("type", JVal.str "text"), ("text", JVal.str "B")])
  else none

/-- C7: the jsonl parser processes lines independently (an unparseable line
between two valid ones contributes nothing and does not disturb them),
captures text only from non-empty `text` events and `item.completed`
`agent_message` events, joins fragments with newlines in event order, and
falls back to the `text` behavior on the raw input when nothing was
captured. -/
theorem jsonl_behavior (p : String → Option JVal) (pre post : List String)
    (m raw : String) (hm : p m = none) :
    jsonl_fragments p (pre ++ m :: post) = jsonl_fragments p (pre ++ post)
  ∧ (jsonl_fragments p (pySplitNL raw) = [] →
      parse_jsonl p raw = parse_text raw)
  ∧ (jsonl_fragments p (pySplitNL raw) ≠ [] →
      parse_jsonl p raw
        = String.intercalate "\n" (jsonl_fragments p (pySplitNL raw)))
  ∧ eventText [("type", JVal.str "text"), ("text", JVal.str "A")] = some "A"
  ∧ eventText [("type", JVal.str "text"), ("text", JVal.str "")] = none
  ∧ eventText [("type", JVal.str "item.completed"),
      ("item", JVal.obj [("type", JVal.str "tool_call"),
        ("text", JVal.str "x")])] = none
  ∧ eventText [("type", JVal.str "item.completed"),
      ("item", JVal.obj [("type", JVal.str "agent_message"),
        ("text", JVal.str "Final")])] = some "Final"
  ∧ parse_jsonl c7_parse "lineA\nzzz\nlineB" = "A\nB" := by
  refine ⟨?_, ?_, ?_, rfl, rfl, rfl, rfl, rfl⟩
  · simp [jsonl_fragments, List.filterMap_append, List.filterMap_cons, hm]
  · intro h
    simp [parse_jsonl, h]
  · intro h
    simp [parse_jsonl, List.isEmpty_iff, h]

/-- Witness for C7 with a malformed line between two text events. -/
theorem jsonl_behavior_witness :
    c7_parse "zzz" = none
  ∧ jsonl_fragments c7_parse (["lineA"] ++ "zzz" :: ["lineB"])
      = jsonl_fragments c7_parse (["lineA"] ++ ["lineB"])
  ∧ parse_jsonl c7_parse "lineA\nzzz\nlineB" = "A\nB" :=
  have h := jsonl_behavior c7_parse ["lineA"] ["lineB"] "zzz"
    "lineA\nzzz\nlineB" rfl
  ⟨rfl, h.1, h.2.2.2.2.2.2.2⟩

/-- Whether a JSON value is the "assistant says X" envelope: an object with
a string-valued `response` key. -/
def isRespEnvelope : JVal → Bool
  | JVal.obj fields =>
    match jlookup fields "response" with
    | some (JVal.str _) => true
    | _ => false
  | _ => false

/-- C8: the json parser returns the empty string on empty or
whitespace-only input without parsing, the `response` key's string value
for an envelope object, the canonical serialization for any other parsed
JSON value, and the trimmed original text when parsing fails. -/
theorem json_behavior (p : String → Option JVal) (raw : String) :
    (pyStrip raw = "" → parse_json p raw = "")
  ∧ (pyStrip raw ≠ "" → p (pyStrip raw) = none →
      parse_json p raw = parse_text raw)
  ∧ (∀ (fields : List (String × JVal)) (s : String), pyStrip raw ≠ "" →
      p (pyStrip raw) = some (JVal.obj fields) →
      jlookup fields "response" = some (JVal.str s) →
      parse_json p raw = s)
  ∧ (∀ v : JVal, pyStrip raw ≠ "" → p (pyStrip raw) = some v →
      isRespEnvelope v = false → parse_json p raw = serializeJson v) := by
  refine ⟨?_, ?_, ?_, ?_⟩
  · intro h
    simp [parse_json, h]
  · intro hne hp
    simp [parse_json, hne, hp]
  · intro fields s hne hp hj
    simp [parse_json, hne, hp, hj]
  · intro v hne hp hre
    cases v with
    | obj fields =>
      cases hj : jlookup fields "response" with
      | none => simp [parse_json, hne, hp, hj, serializeJson]
      | some w =>
        cases w with
        | str s =>
          exfalso
          simp [isRespEnvelope, hj] at hre
        | null => simp [parse_json, hne, hp, hj, serializeJson]
        | bool b => simp [parse_json, hne, hp, hj, serializeJson]
        | num n => simp [parse_json, hne, hp, hj, serializeJson]
        | arr xs => simp [parse_json, hne, hp, hj, serializeJson]
        | obj fs => simp [parse_json, hne, hp, hj, serializeJson]
    | null => simp [parse_json, hne, hp]
    | bool b => simp [parse_json, hne, hp]
    | num n => simp [parse_json, hne, hp]
    | str s => simp [parse_json, hne, hp]
    | arr xs => simp [parse_json, hne, hp]

def c8_parse : String → Option JVal := fun s =>
  if s == "env" then some (JVal.obj [("response", JVal.str "X")]) else none

/-- Witness for C8 on the envelope case with surrounding whitespace. -/
theorem json_behavior_witness :
    pyStrip " env " ≠ ""
  ∧ c8_parse (pyStrip " env ") = some (JVal.obj [("response", JVal.str "X")])
  ∧ parse_json c8_parse " env " = "X" :=
  ⟨by decide, rfl,
    (json_behavior c8_parse " env ").2.2.1 [("response", JVal.str "X")] "X"
      (by decide) rfl rfl⟩

/-- C9: on a non-zero exit the CLI adapter's error response names the exit
code and carries at most `ERROR_PREVIEW_MAX_LENGTH` (500) characters of the
standard-error stream; short stderr passes through whole, and the message
built from the truncated stream is byte-for-byte identical to the original
one — there is no truncation marker. -/
theorem cli_exit_error_behavior (name : String) (code : Int)
    (stderr : String) :
    (cli_exit_error_response name code stderr).status = "error"
  ∧ (cli_exit_error_response name code stderr).error
      = some ("CLI command failed with exit code " ++ toString code ++ ": "
          ++ truncateChars stderr ERROR_PREVIEW_MAX_LENGTH)
  ∧ (truncateChars stderr ERROR_PREVIEW_MAX_LENGTH).length
      ≤ ERROR_PREVIEW_MAX_LENGTH
  ∧ (stderr.length ≤ ERROR_PREVIEW_MAX_LENGTH →
      truncateChars stderr ERROR_PREVIEW_MAX_LENGTH = stderr)
  ∧ cli_exit_error_response name code stderr
      = cli_exit_error_response name code
          (truncateChars stderr ERROR_PREVIEW_MAX_LENGTH) := by
  refine ⟨rfl, rfl, ?_, ?_, ?_⟩
  · show (stderr.data.take ERROR_PREVIEW_MAX_LENGTH).length
      ≤ ERROR_PREVIEW_MAX_LENGTH
    rw [List.length_take]
    exact Nat.min_le_left _ _
  · intro hl
    have hl2 : stderr.data.length ≤ ERROR_PREVIEW_MAX_LENGTH := hl
    unfold truncateChars
    rw [List.take_of_length_le hl2]
  · have hid : truncateChars (truncateChars stderr ERROR_PREVIEW_MAX_LENGTH)
        ERROR_PREVIEW_MAX_LENGTH
      = truncateChars stderr ERROR_PREVIEW_MAX_LENGTH := by
      unfold truncateChars
      simp [List.take_take]
    simp [cli_exit_error_response, hid]

/-- Witness for C9: a short stderr passes through untruncated and the exit
code appears in the message. -/
theorem cli_exit_error_behavior_witness :
    ("boom".length ≤ ERROR_PREVIEW_MAX_LENGTH)
  ∧ truncateChars "boom" ERROR_PREVIEW_MAX_LENGTH = "boom"
  ∧ (cli_exit_error_response "gemini-cli" 1 "boom").error
      = some "CLI command failed with exit code 1: boom"
  ∧ (cli_exit_error_response "gemini-cli" 1 "boom").status = "error" :=
  have h := cli_exit_error_behavior "gemini-cli" 1 "boom"
  ⟨by decide, h.2.2.2.1 (by decide), h.2.1, h.1⟩
